import Mathlib

/-!
Verification development for the Thermostat-NTC repository.

The NTC sensor (`src/lib/NTCSensor/NTCSensor.h`, `NTCSensor.cpp`,
`SensorData.h`) is embedded shallowly: C++ `double`/`float` arithmetic is
modelled over `ℝ` (with the convention `x / 0 = 0` standing in for the IEEE
non-finite results, which is why every place where a divisor can vanish is
tracked explicitly), `uint16_t`/`uint8_t` fields over `ℕ`, and the mutation
of the `SensorData` record by each member function as a function from
sensor state to sensor state.  `analogRead` is an environment input: the
raw sample is passed as an explicit argument.  The `Thermostat` controller
class is declared in `Thermostat.h`, which is not among the repository
files available here; its state machine is therefore modelled from the
specification (section 4.3), as marked on each of those definitions.
-/

namespace NTC

/-- Nominal temperature constant: the `const double To = 25.0;` member of
`SensorData` (`SensorData.h`).  It is a `const` member with a fixed
initializer, identical in every instance, so it is modelled as a constant. -/
noncomputable def To : ℝ := 25

/-- Absolute-zero offset constant: the `const double Tabs = -273.15;` member
of `SensorData` (`SensorData.h`). -/
noncomputable def Tabs : ℝ := -273.15

/-- `ParamsNTC` from `NTCsensor.h`: `uint16_t Rs; uint16_t Ro; uint16_t beta;`. -/
structure ParamsNTC where
  Rs : ℕ
  Ro : ℕ
  beta : ℕ

/-- `ParamsADC` from `NTCsensor.h`: pin, wiring flag, ADC maximum,
attenuation (an enum, carried as a number; it never enters the arithmetic)
and the three voltage constants. -/
structure ParamsADC where
  pin : ℕ
  ntcToGround : Bool
  Amax : ℕ
  att : ℕ
  Vcc : ℝ
  Vref : ℝ
  Voff : ℝ

/-- The Measurement Record: `SensorData` from `SensorData.h`, minus the two
`const` members `To` and `Tabs`, which are modelled as the constants above
because every instance carries the same values. -/
structure SensorData where
  tCelsius : ℝ
  tFahrenheit : ℝ
  tKelvin : ℝ
  Roo : ℝ
  k : ℝ
  v : ℝ
  vin : ℝ
  Rt : ℝ
  analogValue : ℕ
  sensorPin : ℕ

/-- The sensor object: the three references `_ntc`, `_adc`, `_sData` held by
class `NTCSensor`.  All access is single-threaded, so the references are
modelled as owned state. -/
structure NTCSensor where
  ntc : ParamsNTC
  adc : ParamsADC
  sData : SensorData

/-- The `NTCSensor` constructor (`NTCsensor.h`, lines 23-29): besides pin
I/O it performs
`_sData.Roo = _ntc.Ro * exp(-(double)_ntc.beta / (_sData.To - _sData.Tabs));`. -/
noncomputable def NTCSensor.construct (ntc : ParamsNTC) (adc : ParamsADC)
    (sData : SensorData) : NTCSensor :=
  { ntc := ntc, adc := adc,
    sData := { sData with Roo := (ntc.Ro : ℝ) * Real.exp (-(ntc.beta : ℝ) / (To - Tabs)) } }

/-- `NTCSensor::readSensor` (`NTCSensor.cpp`, lines 51-62): reads one raw
sample and overwrites the derived fields of `_sData`.  The raw sample
(`analogRead(_adc.pin)`) is the explicit argument `raw`. -/
noncomputable def NTCSensor.readSensor (s : NTCSensor) (raw : ℕ) : NTCSensor :=
  let analogValue := raw
  let v : ℝ := (s.adc.Vref - s.adc.Voff) / (s.adc.Amax : ℝ)
  let vin : ℝ := (analogValue : ℝ) * v + s.adc.Voff
  let k0 : ℝ := vin / (s.adc.Vcc - vin)
  let k : ℝ := if s.adc.ntcToGround then k0 else 1 / k0
  let Rt : ℝ := (s.ntc.Rs : ℝ) * k
  let tKelvin : ℝ := (s.ntc.beta : ℝ) / Real.log (Rt / s.sData.Roo)
  let tCelsius : ℝ := tKelvin + Tabs
  let tFahrenheit : ℝ := tCelsius * 9 / 5 + 32
  { s with sData :=
    { s.sData with
        analogValue := analogValue, v := v, vin := vin, k := k, Rt := Rt,
        tKelvin := tKelvin, tCelsius := tCelsius, tFahrenheit := tFahrenheit } }

/-- `NTCSensor::setup` (`NTCSensor.cpp`, lines 35-44): records the pin,
recomputes `Roo`, and performs an initial `readSensor()`. -/
noncomputable def NTCSensor.setup (s : NTCSensor) (raw : ℕ) : NTCSensor :=
  let s1 : NTCSensor :=
    { s with sData :=
      { s.sData with
          sensorPin := s.adc.pin,
          Roo := (s.ntc.Ro : ℝ) * Real.exp (-(s.ntc.beta : ℝ) / (To - Tabs)) } }
  s1.readSensor raw

/-- `NTCSensor::getCelsius` (`NTCSensor.cpp`, lines 69-72): the body is
`return _sData.tCelsius;` — it is modelled state-passing style so that the
absence of mutation is a stated property of the embedding. -/
noncomputable def NTCSensor.getCelsius (s : NTCSensor) : NTCSensor × ℝ :=
  (s, s.sData.tCelsius)

/-- `NTCSensor::setNTCbeta` (`NTCSensor.cpp`, lines 84-87): `_ntc.beta = beta;`. -/
def NTCSensor.setNTCbeta (s : NTCSensor) (beta : ℕ) : NTCSensor :=
  { s with ntc := { s.ntc with beta := beta } }

/-- `NTCSensor::printData` (`NTCSensor.cpp`, lines 133-148): first calls
`readSensor()`, then prints `analogValue, v, vin, k, Rt, tCelsius,
tFahrenheit, tKelvin` of the (freshly overwritten) record.  The printed
values are returned as the output component. -/
noncomputable def NTCSensor.printData (s : NTCSensor) (raw : ℕ) :
    NTCSensor × (ℕ × ℝ × ℝ × ℝ × ℝ × ℝ × ℝ × ℝ) :=
  let s1 := s.readSensor raw
  (s1, (s1.sData.analogValue, s1.sData.v, s1.sData.vin, s1.sData.k,
        s1.sData.Rt, s1.sData.tCelsius, s1.sData.tFahrenheit, s1.sData.tKelvin))

/-- The conversion chain exactly as the specification words it (spec
section 4.2): `v = (Vref − Voff)/AdcMax`, `vin = raw*v + Voff`,
`k = vin/(Vcc − vin)` inverted iff the NTC is wired to supply rather than
ground, `Rt = Rs*k`, `Tkelvin = beta/ln(Rt/Roo)`,
`Tcelsius = Tkelvin + Tabs`, `Tfahrenheit = Tcelsius*9/5 + 32`.  Written
from the sentences of the specification, to be compared with the record
stored by `NTCSensor.readSensor`. -/
noncomputable def specConversionChain (Rs beta Amax : ℕ)
    (Vcc Vref Voff : ℝ) (ntcToGround : Bool) (Roo : ℝ) (raw : ℕ) :
    ℝ × ℝ × ℝ × ℝ × ℝ × ℝ × ℝ :=
  let v : ℝ := (Vref - Voff) / (Amax : ℝ)
  let vin : ℝ := (raw : ℝ) * v + Voff
  let k1 : ℝ := vin / (Vcc - vin)
  let k : ℝ := if ntcToGround then k1 else 1 / k1
  let Rt : ℝ := (Rs : ℝ) * k
  let tKelvin : ℝ := (beta : ℝ) / Real.log (Rt / Roo)
  let tCelsius : ℝ := tKelvin + Tabs
  let tFahrenheit : ℝ := tCelsius * 9 / 5 + 32
  (v, vin, k, Rt, tKelvin, tCelsius, tFahrenheit)

/-- The same sensor with the wiring flag set to `b`: used to compare the two
wiring configurations of `ParamsADC.ntcToGround`. -/
def NTCSensor.withGround (s : NTCSensor) (b : Bool) : NTCSensor :=
  { s with adc := { s.adc with ntcToGround := b } }

/-- Modelled from the spec: the `Thermostat` class (`Thermostat.h`) is not
among the repository files available here — only its caller `main.cpp` is —
so the controller state machine is taken from spec section 4.3: the three
states `Disabled`, `Armed-Idle`, `Armed-Heating`. -/
inductive ThermostatMode where
  | disabled
  | armedIdle
  | armedHeating
deriving DecidableEq, Repr

/-- Modelled from the spec: the controller state (spec section 3,
"Thermostat Configuration", and section 4.3) — its mode, the two
temperature limits, the poll interval in milliseconds and the time of the
last poll.  Temperatures are carried as rationals so every comparison is
decidable. -/
structure Thermostat where
  mode : ThermostatMode
  lowerLimit : ℚ
  upperLimit : ℚ
  msRefresh : ℕ
  msLastPoll : ℕ
deriving DecidableEq, Repr

/-- Which callbacks one `tick`/`loop` invocation fired (spec section 6): the
data callback `onTick`, and the two heating callbacks `onBelowLowerLimit`
and `onAboveUpperLimit`. -/
structure PollEvents where
  onTickFired : Bool
  onBelowFired : Bool
  onAboveFired : Bool
deriving DecidableEq, Repr

/-- Modelled from the spec: the hysteresis evaluation of one poll (spec
section 4.3 transitions).  In `Armed-Idle`, a temperature below
`lowerLimit` moves to `Armed-Heating` and fires `onBelowLowerLimit` on that
edge only; in `Armed-Heating`, a temperature at or above `upperLimit` moves
back to `Armed-Idle` and fires `onAboveUpperLimit`; while `Disabled`,
readings are still taken but no heating callback fires.  Returns the new
state and the pair (belowFired, aboveFired). -/
def Thermostat.evalHysteresis (t : Thermostat) (temp : ℚ) :
    Thermostat × Bool × Bool :=
  match t.mode with
  | .disabled => (t, false, false)
  | .armedIdle =>
      if temp < t.lowerLimit then
        ({ t with mode := .armedHeating }, true, false)
      else (t, false, false)
  | .armedHeating =>
      if t.upperLimit ≤ temp then
        ({ t with mode := .armedIdle }, false, true)
      else (t, false, false)

/-- Modelled from the spec: the non-blocking `tick()`/`loop()` operation
(spec section 4.3, "Scheduling"): if the time elapsed since the last poll
reaches the configured interval, perform one sensor read, fire the data
callback, evaluate the hysteresis transition and reset the last-poll
timestamp; otherwise do nothing.  `now` is the free-running clock value and
`temp` the temperature the sensor read would deliver; the `Bool` result
records whether a sensor read was performed. -/
def Thermostat.loop (t : Thermostat) (now : ℕ) (temp : ℚ) :
    Thermostat × Bool × PollEvents :=
  if t.msRefresh ≤ now - t.msLastPoll then
    let e := t.evalHysteresis temp
    ({ e.1 with msLastPoll := now }, true,
     { onTickFired := true, onBelowFired := e.2.1, onAboveFired := e.2.2 })
  else (t, false, { onTickFired := false, onBelowFired := false, onAboveFired := false })

/-- A run of successful polls (spec section 8 states the hysteresis edge
property over a plain temperature sequence): evaluates the hysteresis once
per listed temperature and records the events of each poll. -/
def Thermostat.runPolls (t : Thermostat) (temps : List ℚ) :
    Thermostat × List PollEvents :=
  match temps with
  | [] => (t, [])
  | x :: xs =>
    let e := t.evalHysteresis x
    let rest := Thermostat.runPolls e.1 xs
    (rest.1, { onTickFired := true, onBelowFired := e.2.1, onAboveFired := e.2.2 } :: rest.2)

/-- A run of `loop` invocations at given clock times with given available
temperatures, counting performed sensor reads and fired `onTick` callbacks. -/
def Thermostat.runLoop (t : Thermostat) (calls : List (ℕ × ℚ)) :
    Thermostat × ℕ × ℕ :=
  match calls with
  | [] => (t, 0, 0)
  | c :: cs =>
    let r := Thermostat.loop t c.1 c.2
    let rest := Thermostat.runLoop r.1 cs
    (rest.1, (if r.2.1 then 1 else 0) + rest.2.1,
     (if r.2.2.onTickFired then 1 else 0) + rest.2.2)

/-- The actuator-side state of `main.cpp`: the global `bool heatingIsOn` and
the level written to `PIN_THERMOSTAT`. -/
structure MainState where
  heatingIsOn : Bool
  pinThermostat : Bool
deriving DecidableEq, Repr

/-- `turnHeatingOn` (`main.cpp`, lines 93-101): if the heating is not on,
write `HIGH` to the thermostat pin and set the flag. -/
def turnHeatingOn (m : MainState) : MainState :=
  if ¬ m.heatingIsOn then { heatingIsOn := true, pinThermostat := true } else m

/-- `turnHeatingOff` (`main.cpp`, lines 104-112): if the heating is on,
write `LOW` to the thermostat pin and clear the flag. -/
def turnHeatingOff (m : MainState) : MainState :=
  if m.heatingIsOn then { heatingIsOn := false, pinThermostat := false } else m

/-- Dispatch of the heating callbacks of one poll to the handlers wired up
in `main.cpp` (`Thermostat thermostat(sensor, processData, turnHeatingOn,
turnHeatingOff)`). -/
def applyHeatingCallbacks (m : MainState) (ev : PollEvents) : MainState :=
  let m1 := if ev.onBelowFired then turnHeatingOn m else m
  if ev.onAboveFired then turnHeatingOff m1 else m1

/-- The controller configuration of the hysteresis test in spec section 8:
armed and idle, `lowerLimit = 18`, `upperLimit = 22` (the interval fields
play no role in a poll run). -/
def thermostatC2 : Thermostat :=
  { mode := .armedIdle, lowerLimit := 18, upperLimit := 22,
    msRefresh := 5000, msLastPoll := 0 }

/-- The controller configuration of the interval-gating test in spec
section 8: interval 1000 ms, last poll at time 0. -/
def thermostatC4 : Thermostat :=
  { mode := .armedIdle, lowerLimit := 18, upperLimit := 22,
    msRefresh := 1000, msLastPoll := 0 }

/-- 100 calls to `loop`, at clock times 0..99 — all within one window
shorter than the 1000 ms interval — each with temperature 20. -/
def callsC4 : List (ℕ × ℚ) := (List.range 100).map (fun i => (i, 20))

/-- A test NTC calibration: `Rs = Ro = 10000`, `beta = 2800` (the ELEGOO
values of `main.cpp`). -/
def ntcTest : ParamsNTC := { Rs := 10000, Ro := 10000, beta := 2800 }

/-- A degenerate NTC calibration with `beta = 0` (representable: `beta` is a
`uint16_t`); it makes `Roo = Ro`, so a raw sample hitting `Rt = Ro` hits the
`Rt == Roo` singularity exactly. -/
def ntcZeroBeta : ParamsNTC := { Rs := 10000, Ro := 10000, beta := 0 }

/-- A test ADC calibration chosen so the arithmetic is exact: one volt per
step (`Vref = Amax`, `Voff = 0`), `Vcc = 3300`, NTC wired to ground. -/
def adcTest : ParamsADC :=
  { pin := 34, ntcToGround := true, Amax := 4000, att := 3,
    Vcc := 3300, Vref := 4000, Voff := 0 }

/-- An all-zero Measurement Record, standing for the record before any read. -/
noncomputable def blankData : SensorData :=
  { tCelsius := 0, tFahrenheit := 0, tKelvin := 0, Roo := 0, k := 0, v := 0,
    vin := 0, Rt := 0, analogValue := 0, sensorPin := 0 }

/-- A freshly constructed sensor with the test calibration. -/
noncomputable def sensorC8 : NTCSensor := NTCSensor.construct ntcTest adcTest blankData

/-- A freshly constructed sensor with the `beta = 0` calibration, for which
raw sample 1650 produces exactly `Rt = Roo`. -/
noncomputable def sensorC3 : NTCSensor := NTCSensor.construct ntcZeroBeta adcTest blankData

/-- C1: for every raw ADC sample and every fixed calibration parameter set,
one call to `readSensor` stores into the Measurement Record exactly the
values of the conversion chain as the specification words it (and the raw
sample itself), the `k` inversion being selected by `ntcToGround` exactly
as the specification states. -/
theorem readSensor_matches_spec_chain (s : NTCSensor) (raw : ℕ) :
    ((s.readSensor raw).sData.v, (s.readSensor raw).sData.vin,
     (s.readSensor raw).sData.k, (s.readSensor raw).sData.Rt,
     (s.readSensor raw).sData.tKelvin, (s.readSensor raw).sData.tCelsius,
     (s.readSensor raw).sData.tFahrenheit) =
      specConversionChain s.ntc.Rs s.ntc.beta s.adc.Amax
        s.adc.Vcc s.adc.Vref s.adc.Voff s.adc.ntcToGround s.sData.Roo raw ∧
    (s.readSensor raw).sData.analogValue = raw := by
  constructor
  · rfl
  · rfl

/-- C2: the heating callbacks are edge-triggered.  Polling the temperatures
`[20, 17, 16, 19, 23, 21]` from `Armed-Idle` with limits 18/22 fires
`onBelowLowerLimit` exactly once — at the first poll below the limit (17),
not again at 16 — and `onAboveUpperLimit` exactly once, at 23; no heating
callback fires on an in-band reading, and routing the fired callbacks
through `turnHeatingOn`/`turnHeatingOff` of `main.cpp` drives the heater
pin `HIGH` exactly once (at the 17 poll) and back `LOW` once (at 23). -/
theorem hysteresis_edge_triggered_sequence :
    ((Thermostat.runPolls thermostatC2 [20, 17, 16, 19, 23, 21]).2.map
        PollEvents.onBelowFired = [false, true, false, false, false, false]) ∧
    ((Thermostat.runPolls thermostatC2 [20, 17, 16, 19, 23, 21]).2.map
        PollEvents.onAboveFired = [false, false, false, false, true, false]) ∧
    (((Thermostat.runPolls thermostatC2 [20, 17, 16, 19, 23, 21]).2.map
        PollEvents.onBelowFired).count true = 1) ∧
    (((Thermostat.runPolls thermostatC2 [20, 17, 16, 19, 23, 21]).2.map
        PollEvents.onAboveFired).count true = 1) ∧
    ((List.scanl applyHeatingCallbacks
        { heatingIsOn := false, pinThermostat := false }
        (Thermostat.runPolls thermostatC2 [20, 17, 16, 19, 23, 21]).2).map
        MainState.pinThermostat =
      [false, false, true, true, true, false, false]) := by
  decide

/-- The hysteresis evaluation never touches the timing fields. -/
lemma evalHysteresis_timing (t : Thermostat) (temp : ℚ) :
    (t.evalHysteresis temp).1.msRefresh = t.msRefresh ∧
    (t.evalHysteresis temp).1.msLastPoll = t.msLastPoll := by
  rcases t with ⟨mode, ll, ul, r, lp⟩
  cases mode <;> dsimp [Thermostat.evalHysteresis] <;>
    first
    | exact ⟨rfl, rfl⟩
    | (split <;> exact ⟨rfl, rfl⟩)

/-- A `loop` invocation before the interval has elapsed is a no-op. -/
lemma loop_skip (t : Thermostat) (now : ℕ) (temp : ℚ)
    (h : now - t.msLastPoll < t.msRefresh) :
    t.loop now temp =
      (t, false, { onTickFired := false, onBelowFired := false, onAboveFired := false }) := by
  unfold Thermostat.loop
  rw [if_neg (by omega)]

/-- A `loop` invocation once the interval has elapsed polls: it reads, fires
the data callback, resets the last-poll timestamp and keeps the interval. -/
lemma loop_poll (t : Thermostat) (now : ℕ) (temp : ℚ)
    (h : t.msRefresh ≤ now - t.msLastPoll) :
    (t.loop now temp).1.msLastPoll = now ∧
    (t.loop now temp).1.msRefresh = t.msRefresh ∧
    (t.loop now temp).2.1 = true ∧
    (t.loop now temp).2.2.onTickFired = true := by
  unfold Thermostat.loop
  rw [if_pos h]
  exact ⟨rfl, (evalHysteresis_timing t temp).1, rfl, rfl⟩

/-- Once the last poll already lies inside a window shorter than the
interval, every further call inside that window is a no-op. -/
lemma runLoop_no_read_in_window (t : Thermostat) (a : ℕ) (calls : List (ℕ × ℚ))
    (hw : ∀ c ∈ calls, a ≤ c.1 ∧ c.1 < a + t.msRefresh)
    (ht : a ≤ t.msLastPoll) :
    t.runLoop calls = (t, 0, 0) := by
  induction calls with
  | nil => rfl
  | cons c cs ih =>
    have hc := hw c (List.mem_cons_self c cs)
    have hskip : c.1 - t.msLastPoll < t.msRefresh := by omega
    have hrest : t.runLoop cs = (t, 0, 0) :=
      ih (fun x hx => hw x (List.mem_cons_of_mem c hx))
    simp [Thermostat.runLoop, loop_skip t c.1 c.2 hskip, hrest]

/-- C4: the `loop` of the controller is interval-gated.  An invocation with
elapsed time below the configured interval is a no-op (no read, no
callback); an invocation with elapsed time at least the interval performs
the read, fires the data callback and resets the last-poll timestamp; and
any number of calls whose clock times all lie inside one window shorter
than the configured interval cause at most one sensor read and at most one
`onTick` invocation. -/
theorem thermostat_loop_interval_gated :
    (∀ (t : Thermostat) (now : ℕ) (temp : ℚ),
        now - t.msLastPoll < t.msRefresh →
          t.loop now temp =
            (t, false,
             { onTickFired := false, onBelowFired := false, onAboveFired := false })) ∧
    (∀ (t : Thermostat) (now : ℕ) (temp : ℚ),
        t.msRefresh ≤ now - t.msLastPoll →
          (t.loop now temp).2.1 = true ∧
          (t.loop now temp).2.2.onTickFired = true ∧
          (t.loop now temp).1.msLastPoll = now) ∧
    (∀ (t : Thermostat) (a : ℕ) (calls : List (ℕ × ℚ)),
        (∀ c ∈ calls, a ≤ c.1 ∧ c.1 < a + t.msRefresh) →
          (t.runLoop calls).2.1 ≤ 1 ∧ (t.runLoop calls).2.2 ≤ 1) := by
  refine ⟨loop_skip, fun t now temp h => ?_, fun t a calls hw => ?_⟩
  · obtain ⟨h1, _, h3, h4⟩ := loop_poll t now temp h
    exact ⟨h3, h4, h1⟩
  · induction calls generalizing t with
    | nil => exact ⟨Nat.zero_le 1, Nat.zero_le 1⟩
    | cons c cs ih =>
      have hc := hw c (List.mem_cons_self c cs)
      have hw2 : ∀ x ∈ cs, a ≤ x.1 ∧ x.1 < a + t.msRefresh :=
        fun x hx => hw x (List.mem_cons_of_mem c hx)
      by_cases h : t.msRefresh ≤ c.1 - t.msLastPoll
      · obtain ⟨h1, h2, h3, h4⟩ := loop_poll t c.1 c.2 h
        have hwre : ∀ x ∈ cs, a ≤ x.1 ∧ x.1 < a + (t.loop c.1 c.2).1.msRefresh := by
          rw [h2]; exact hw2
        have hrest := runLoop_no_read_in_window (t.loop c.1 c.2).1 a cs hwre
          (by rw [h1]; exact hc.1)
        simp only [Thermostat.runLoop, hrest, h3, h4, if_true]
        exact ⟨Nat.le_refl 1, Nat.le_refl 1⟩
      · have hrest := ih t hw2
        simp only [Thermostat.runLoop, loop_skip t c.1 c.2 (by omega)]
        simpa using hrest

/-- Witness for C4: the 100 calls within less than one interval cause at
most one sensor read and at most one `onTick`, and a single early call is a
no-op. -/
theorem thermostat_loop_interval_gated_witness :
    (thermostatC4.runLoop callsC4).2.1 ≤ 1 ∧
    (thermostatC4.runLoop callsC4).2.2 ≤ 1 ∧
    thermostatC4.loop 5 20 =
      (thermostatC4, false,
       { onTickFired := false, onBelowFired := false, onAboveFired := false }) := by
  refine ⟨(thermostat_loop_interval_gated.2.2 thermostatC4 0 callsC4 (by decide)).1,
          (thermostat_loop_interval_gated.2.2 thermostatC4 0 callsC4 (by decide)).2,
          thermostat_loop_interval_gated.1 thermostatC4 5 20 (by decide)⟩

/-- `readSensor` stores `tCelsius = beta / log(Rt / Roo) + Tabs` with the
pre-read `Roo`; stated once, definitionally. -/
lemma readSensor_tCelsius_eq (s : NTCSensor) (raw : ℕ) :
    (s.readSensor raw).sData.tCelsius =
      (s.ntc.beta : ℝ) / Real.log ((s.readSensor raw).sData.Rt / s.sData.Roo) + Tabs := rfl

/-- At the calibration point — a raw sample whose reconstructed divider
resistance equals the nominal resistance `Ro`, on a sensor whose `Roo` was
derived by the beta equation — the stored Celsius temperature is exactly
the nominal 25. -/
lemma readSensor_tCelsius_calib (s : NTCSensor) (raw : ℕ)
    (hRoo : s.sData.Roo = (s.ntc.Ro : ℝ) * Real.exp (-(s.ntc.beta : ℝ) / (To - Tabs)))
    (hRt : (s.readSensor raw).sData.Rt = (s.ntc.Ro : ℝ))
    (hbeta : (s.ntc.beta : ℝ) ≠ 0)
    (hRo : (s.ntc.Ro : ℝ) ≠ 0) :
    (s.readSensor raw).sData.tCelsius = 25 := by
  rw [readSensor_tCelsius_eq, hRt, hRoo, div_mul_eq_div_div, div_self hRo, one_div,
    neg_div, Real.exp_neg, inv_inv, Real.log_exp]
  have hT : To - Tabs ≠ 0 := by norm_num [To, Tabs]
  have h2 : (s.ntc.beta : ℝ) / ((s.ntc.beta : ℝ) / (To - Tabs)) = To - Tabs := by
    field_simp
  rw [h2]
  norm_num [To, Tabs]

/-- On the test calibration, raw sample 1650 reconstructs `vin = 1650`,
`k = 1` and `Rt = 10000 = Ro`. -/
lemma sensorC8_Rt : (sensorC8.readSensor 1650).sData.Rt = (sensorC8.ntc.Ro : ℝ) := by
  simp [NTCSensor.readSensor, sensorC8, NTCSensor.construct, ntcTest, adcTest, blankData]
  norm_num

lemma sensorC8_beta_ne : (sensorC8.ntc.beta : ℝ) ≠ 0 := by
  norm_num [sensorC8, NTCSensor.construct, ntcTest]

lemma sensorC8_Ro_ne : (sensorC8.ntc.Ro : ℝ) ≠ 0 := by
  norm_num [sensorC8, NTCSensor.construct, ntcTest]

/-- On the test calibration, the read at the calibration point stores 25 °C. -/
lemma sensorC8_tCelsius : (sensorC8.readSensor 1650).sData.tCelsius = 25 :=
  readSensor_tCelsius_calib sensorC8 1650 rfl sensorC8_Rt sensorC8_beta_ne sensorC8_Ro_ne

/-- C8: round-trip at the calibration point.  For every calibration whose
`Roo` was derived by the beta equation (with nonzero `beta` and `Ro`), a raw
sample whose reconstructed resistance `Rt` equals the nominal `Ro` yields a
stored Celsius temperature of exactly 25 over the reals, in particular
within the 1e-3 tolerance. -/
theorem roundtrip_calibration_point (s : NTCSensor) (raw : ℕ)
    (hRoo : s.sData.Roo = (s.ntc.Ro : ℝ) * Real.exp (-(s.ntc.beta : ℝ) / (To - Tabs)))
    (hRt : (s.readSensor raw).sData.Rt = (s.ntc.Ro : ℝ))
    (hbeta : (s.ntc.beta : ℝ) ≠ 0)
    (hRo : (s.ntc.Ro : ℝ) ≠ 0) :
    (s.readSensor raw).sData.tCelsius = 25 ∧
    |(s.readSensor raw).sData.tCelsius - 25| ≤ 1 / 1000 := by
  have h := readSensor_tCelsius_calib s raw hRoo hRt hbeta hRo
  exact ⟨h, by rw [h]; norm_num⟩

/-- Witness for C8: the test sensor at raw sample 1650 hits `Rt = Ro` and
reads exactly 25 °C. -/
theorem roundtrip_calibration_point_witness :
    (sensorC8.readSensor 1650).sData.Rt = (sensorC8.ntc.Ro : ℝ) ∧
    (sensorC8.readSensor 1650).sData.tCelsius = 25 ∧
    |(sensorC8.readSensor 1650).sData.tCelsius - 25| ≤ 1 / 1000 :=
  ⟨sensorC8_Rt,
   roundtrip_calibration_point sensorC8 1650 rfl sensorC8_Rt sensorC8_beta_ne sensorC8_Ro_ne⟩

/-- The `beta = 0` sensor has `Roo = Ro = 10000` exactly. -/
lemma sensorC3_Roo : sensorC3.sData.Roo = 10000 := by
  simp [sensorC3, NTCSensor.construct, ntcZeroBeta, Real.exp_zero]

/-- The `beta = 0` sensor reconstructs `Rt = 10000` from raw sample 1650. -/
lemma sensorC3_Rt : (sensorC3.readSensor 1650).sData.Rt = 10000 := by
  simp [NTCSensor.readSensor, sensorC3, NTCSensor.construct, ntcZeroBeta, adcTest, blankData]
  norm_num

/-- Counterexample to C3: a calibration and raw sample with computed
`Rt = Roo` on which `readSensor` does not discard the read and does not
retain the previous Measurement Record — it overwrites the record even
though the Kelvin divisor `log(Rt/Roo)` is zero. -/
theorem readSensor_invalid_reading_counterexample :
    (sensorC3.readSensor 1650).sData.Rt = sensorC3.sData.Roo ∧
    Real.log ((sensorC3.readSensor 1650).sData.Rt / sensorC3.sData.Roo) = 0 ∧
    (sensorC3.readSensor 1650).sData ≠ sensorC3.sData := by
  refine ⟨sensorC3_Rt.trans sensorC3_Roo.symm, ?_, ?_⟩
  · rw [sensorC3_Rt, sensorC3_Roo, div_self (by norm_num)]
    exact Real.log_one
  · intro h
    have h2 := congrArg SensorData.analogValue h
    simp [NTCSensor.readSensor, sensorC3, NTCSensor.construct, ntcZeroBeta, adcTest,
      blankData] at h2

/-- C3 as amended: `readSensor` has no numeric-domain guard.  Whenever the
computed `Rt` equals `Roo`, the Kelvin divisor `log(Rt/Roo)` is zero, yet
the whole Measurement Record is still overwritten with the freshly computed
values: the stored Kelvin temperature is the division-by-zero expression
`beta / 0` (a non-finite value in the IEEE arithmetic of the source; the
junk value 0 under the real-valued embedding), and the raw sample is
stored.  No `InvalidReading` classification exists anywhere in the code. -/
theorem readSensor_overwrites_on_rt_eq_roo (s : NTCSensor) (raw : ℕ)
    (h : (s.readSensor raw).sData.Rt = s.sData.Roo) :
    Real.log ((s.readSensor raw).sData.Rt / s.sData.Roo) = 0 ∧
    (s.readSensor raw).sData.tKelvin = (s.ntc.beta : ℝ) / 0 ∧
    (s.readSensor raw).sData.tCelsius = (s.ntc.beta : ℝ) / 0 + Tabs ∧
    (s.readSensor raw).sData.analogValue = raw := by
  have hlog : Real.log ((s.readSensor raw).sData.Rt / s.sData.Roo) = 0 := by
    rw [h]
    rcases eq_or_ne s.sData.Roo 0 with h0 | h0
    · rw [h0, div_zero, Real.log_zero]
    · rw [div_self h0, Real.log_one]
  have hK : (s.readSensor raw).sData.tKelvin
      = (s.ntc.beta : ℝ) / Real.log ((s.readSensor raw).sData.Rt / s.sData.Roo) := rfl
  exact ⟨hlog, by rw [hK, hlog], by rw [readSensor_tCelsius_eq, hlog], rfl⟩

/-- Witness for the amended C3: the `beta = 0` sensor at raw sample 1650. -/
theorem readSensor_overwrites_on_rt_eq_roo_witness :
    Real.log ((sensorC3.readSensor 1650).sData.Rt / sensorC3.sData.Roo) = 0 ∧
    (sensorC3.readSensor 1650).sData.tKelvin = (sensorC3.ntc.beta : ℝ) / 0 ∧
    (sensorC3.readSensor 1650).sData.tCelsius = (sensorC3.ntc.beta : ℝ) / 0 + Tabs ∧
    (sensorC3.readSensor 1650).sData.analogValue = 1650 :=
  readSensor_overwrites_on_rt_eq_roo sensorC3 1650 (sensorC3_Rt.trans sensorC3_Roo.symm)

/-- Flipping the voltage divider replaces `vin` by `Vcc − vin`; the inverted
conversion factor then equals the uninverted one. -/
lemma reciprocal_vin_k (Vcc vT vF : ℝ) (h : vT + vF = Vcc) :
    1 / (vF / (Vcc - vF)) = vT / (Vcc - vT) := by
  have h1 : Vcc - vF = vT := by linarith
  have h2 : vF = Vcc - vT := by linarith
  rw [h1, one_div_div, h2]

/-- C5: wiring-direction property.  For the same reconstructed input voltage
(same raw sample, same voltage calibration), the `k` computed with
`ntcToGround = false` is exactly the reciprocal of the `k` computed with
`ntcToGround = true`; and for raw samples whose reconstructed voltages are
complementary (`vinT + vinF = Vcc` — what one fixed physical resistance
produces in the two wiring directions with consistent calibration), the two
configurations store the identical `k`, `Rt` and final temperature. -/
theorem wiring_direction_reciprocal :
    (∀ (s : NTCSensor) (raw : ℕ),
        ((s.withGround false).readSensor raw).sData.k =
          (((s.withGround true).readSensor raw).sData.k)⁻¹) ∧
    (∀ (s : NTCSensor) (rawT rawF : ℕ),
        ((s.withGround true).readSensor rawT).sData.vin +
            ((s.withGround false).readSensor rawF).sData.vin = s.adc.Vcc →
          ((s.withGround false).readSensor rawF).sData.k =
              ((s.withGround true).readSensor rawT).sData.k ∧
            ((s.withGround false).readSensor rawF).sData.Rt =
              ((s.withGround true).readSensor rawT).sData.Rt ∧
            ((s.withGround false).readSensor rawF).sData.tCelsius =
              ((s.withGround true).readSensor rawT).sData.tCelsius) := by
  constructor
  · intro s raw
    exact one_div _
  · intro s rawT rawF hsum
    have hk : ((s.withGround false).readSensor rawF).sData.k =
        ((s.withGround true).readSensor rawT).sData.k := by
      have hkF : ((s.withGround false).readSensor rawF).sData.k =
          1 / (((s.withGround false).readSensor rawF).sData.vin /
            (s.adc.Vcc - ((s.withGround false).readSensor rawF).sData.vin)) := rfl
      have hkT : ((s.withGround true).readSensor rawT).sData.k =
          ((s.withGround true).readSensor rawT).sData.vin /
            (s.adc.Vcc - ((s.withGround true).readSensor rawT).sData.vin) := rfl
      rw [hkF, reciprocal_vin_k s.adc.Vcc _ _ hsum, hkT]
    have hRt : ((s.withGround false).readSensor rawF).sData.Rt =
        ((s.withGround true).readSensor rawT).sData.Rt := by
      show (s.ntc.Rs : ℝ) * ((s.withGround false).readSensor rawF).sData.k =
        (s.ntc.Rs : ℝ) * ((s.withGround true).readSensor rawT).sData.k
      rw [hk]
    have hKel : ((s.withGround false).readSensor rawF).sData.tKelvin =
        ((s.withGround true).readSensor rawT).sData.tKelvin := by
      show (s.ntc.beta : ℝ) /
          Real.log (((s.withGround false).readSensor rawF).sData.Rt / s.sData.Roo) =
        (s.ntc.beta : ℝ) /
          Real.log (((s.withGround true).readSensor rawT).sData.Rt / s.sData.Roo)
      rw [hRt]
    refine ⟨hk, hRt, ?_⟩
    show ((s.withGround false).readSensor rawF).sData.tKelvin + Tabs =
      ((s.withGround true).readSensor rawT).sData.tKelvin + Tabs
    rw [hKel]

/-- Witness for C5: on the test sensor, raw 1650 gives reciprocal `k` in the
two wiring directions, and the complementary pair (raw 1000, raw 2300 with
`vin` 1000 and 2300, summing to `Vcc = 3300`) gives the same temperature. -/
theorem wiring_direction_reciprocal_witness :
    ((sensorC8.withGround false).readSensor 1650).sData.k =
      (((sensorC8.withGround true).readSensor 1650).sData.k)⁻¹ ∧
    ((sensorC8.withGround false).readSensor 2300).sData.tCelsius =
      ((sensorC8.withGround true).readSensor 1000).sData.tCelsius := by
  refine ⟨wiring_direction_reciprocal.1 sensorC8 1650,
          (wiring_direction_reciprocal.2 sensorC8 1000 2300 ?_).2.2⟩
  norm_num [NTCSensor.readSensor, NTCSensor.withGround, sensorC8, NTCSensor.construct,
    ntcTest, adcTest, blankData]

/-- Any sequence of reads leaves `Roo` untouched. -/
lemma foldl_readSensor_Roo (s : NTCSensor) (raws : List ℕ) :
    (raws.foldl NTCSensor.readSensor s).sData.Roo = s.sData.Roo := by
  induction raws generalizing s with
  | nil => rfl
  | cons r rs ih =>
    rw [List.foldl_cons]
    exact ih (s.readSensor r)

/-- C6: `Roo` is computed as `Ro * exp(−beta/(To − Tabs))` at construction
and again in `setup`, and no subsequent `readSensor` or `getCelsius` ever
recomputes or modifies it: after `setup`, every sequence of reads leaves the
stored `Roo` equal to the value computed at setup time. -/
theorem roo_computed_once_invariant :
    (∀ (ntc : ParamsNTC) (adc : ParamsADC) (d : SensorData),
        (NTCSensor.construct ntc adc d).sData.Roo =
          (ntc.Ro : ℝ) * Real.exp (-(ntc.beta : ℝ) / (To - Tabs))) ∧
    (∀ (s : NTCSensor) (raw : ℕ),
        (s.setup raw).sData.Roo =
          (s.ntc.Ro : ℝ) * Real.exp (-(s.ntc.beta : ℝ) / (To - Tabs))) ∧
    (∀ (s : NTCSensor) (raw : ℕ) (raws : List ℕ),
        (raws.foldl NTCSensor.readSensor (s.setup raw)).sData.Roo =
          (s.ntc.Ro : ℝ) * Real.exp (-(s.ntc.beta : ℝ) / (To - Tabs))) ∧
    (∀ (s : NTCSensor) (raws : List ℕ),
        (raws.foldl NTCSensor.readSensor s).sData.Roo = s.sData.Roo) ∧
    (∀ s : NTCSensor, (s.getCelsius).1 = s) := by
  refine ⟨fun ntc adc d => rfl, fun s raw => rfl, fun s raw raws => ?_,
          foldl_readSensor_Roo, fun s => rfl⟩
  rw [foldl_readSensor_Roo]
  rfl

/-- C7: `getCelsius` returns exactly the Celsius value currently stored in
the Measurement Record and mutates nothing: any number of calls between two
reads leaves the sensor state identical and keeps returning the same value. -/
theorem getCelsius_pure_frame :
    (∀ s : NTCSensor, s.getCelsius = (s, s.sData.tCelsius)) ∧
    (∀ (s : NTCSensor) (n : ℕ),
        (fun x : NTCSensor => (x.getCelsius).1)^[n] s = s) ∧
    (∀ (s : NTCSensor) (n : ℕ),
        (((fun x : NTCSensor => (x.getCelsius).1)^[n] s).getCelsius).2 =
          s.sData.tCelsius) := by
  refine ⟨fun s => rfl,
          fun s n =>
            Function.iterate_fixed (rfl : (fun x : NTCSensor => (x.getCelsius).1) s = s) n,
          fun s n => ?_⟩
  rw [Function.iterate_fixed (rfl : (fun x : NTCSensor => (x.getCelsius).1) s = s) n]
  rfl

/-- C9: `printData` is not a pure dump of the current Measurement Record —
it first performs `readSensor`, overwriting all derived fields with a fresh
sample, and only then prints the (new) record; on the test sensor one
`printData` call changes the stored Celsius temperature (from 0 to 25). -/
theorem printData_reads_before_printing :
    (∀ (s : NTCSensor) (raw : ℕ), (s.printData raw).1 = s.readSensor raw) ∧
    (∀ (s : NTCSensor) (raw : ℕ),
        (s.printData raw).2 =
          ((s.readSensor raw).sData.analogValue, (s.readSensor raw).sData.v,
           (s.readSensor raw).sData.vin, (s.readSensor raw).sData.k,
           (s.readSensor raw).sData.Rt, (s.readSensor raw).sData.tCelsius,
           (s.readSensor raw).sData.tFahrenheit, (s.readSensor raw).sData.tKelvin)) ∧
    ((sensorC8.printData 1650).1.sData.tCelsius ≠ sensorC8.sData.tCelsius) := by
  refine ⟨fun s raw => rfl, fun s raw => rfl, fun h => ?_⟩
  have h1 : (sensorC8.printData 1650).1.sData.tCelsius = 25 := sensorC8_tCelsius
  have h2 : sensorC8.sData.tCelsius = 0 := rfl
  rw [h1, h2] at h
  norm_num at h

/-- C10: `setNTCbeta` mutates only the `beta` calibration parameter — the
other NTC parameters, the ADC parameters and the whole Measurement Record
(in particular `Roo`) are untouched — so every subsequent `readSensor`
computes the Kelvin temperature with the new `beta` over the `Roo` that was
derived from the old `beta`. -/
theorem setNTCbeta_frame_old_roo (s : NTCSensor) (b : ℕ) :
    (s.setNTCbeta b).ntc.beta = b ∧
    (s.setNTCbeta b).ntc.Rs = s.ntc.Rs ∧
    (s.setNTCbeta b).ntc.Ro = s.ntc.Ro ∧
    (s.setNTCbeta b).adc = s.adc ∧
    (s.setNTCbeta b).sData = s.sData ∧
    (∀ raw : ℕ,
        ((s.setNTCbeta b).readSensor raw).sData.Roo = s.sData.Roo ∧
        ((s.setNTCbeta b).readSensor raw).sData.tKelvin =
          (b : ℝ) / Real.log ((s.readSensor raw).sData.Rt / s.sData.Roo)) :=
  ⟨rfl, rfl, rfl, rfl, rfl, fun raw => ⟨rfl, rfl⟩⟩

end NTC
